import Mathlib

/-!
# Shallow embedding of the omnect `azure-iot-sdk` client layer

This file embeds the claim-relevant parts of the Rust sources into Lean and
proves (or refutes) the frozen claims about them.

Conventions of the embedding:

* Rust `HashMap`s are modelled as association lists in iteration order; the
  properties proved do not depend on the iteration order of the map.
* `CString` fields are modelled as Lean `String`s; `CString::new` fails exactly
  when the argument contains an embedded NUL byte, which for a UTF-8 string is
  exactly an embedded `U+0000` character (`hasNulByte`).
* Native SDK calls are modelled through explicit oracles recording, for each
  possible call, whether the native side reports success.  The *trace* of
  native calls made by a function is part of its result, so that claims about
  "which native calls happen" are provable.
* Rust panics (`panic!`, `expect`, `unwrap`, `assert_eq!`, `todo!`) are
  modelled as an explicit `panicked` constructor of the result type; they are
  never conflated with `Result::Err`.
-/

namespace AzureIotSdk

/-! ## Log output

Log macros (`trace!`/`debug!`/`info!`/`warn!`/`error!`) are modelled as values
of `LogEntry`; the formatted text keeps the fixed parts of the source format
strings. -/

inductive LogEntry
  | traceMsg (s : String)
  | debugMsg (s : String)
  | infoMsg (s : String)
  | warnMsg (s : String)
  | errorMsg (s : String)
deriving DecidableEq

/-- Outcome of running a Rust function that may panic. -/
inductive RunOutcome (α : Type)
  | panicked (msg : String)
  | returned (val : α)
deriving DecidableEq

/-- `true` iff the string contains an embedded NUL character; this is exactly
the failure condition of `CString::new` on a Rust `String`. -/
def hasNulByte (s : String) : Bool :=
  s.data.any (fun c => c == Char.ofNat 0)

/-! ## Message codec (`src/client/message.rs`) -/

/-- `Direction` (src/client/message.rs:11-16). -/
inductive Direction
  | Incoming
  | Outgoing
deriving DecidableEq

/-- `IotMessage` (src/client/message.rs:49-61).  The native
`IOTHUB_MESSAGE_HANDLE` is modelled as a `Nat` identifier. -/
structure IotMessage where
  handle : Option Nat
  body : List Nat
  output_queue : String
  direction : Direction
  properties : List (String × String)
  system_properties : List (String × String)
deriving DecidableEq

/-- `IotMessageBuilder` (src/client/message.rs:235-240). -/
structure IotMessageBuilder where
  message : Option (List Nat)
  output_queue : String
  properties : List (String × String)
  system_properties : List (String × String)
deriving DecidableEq

/-- `IotMessage::builder()` (src/client/message.rs:76-81): default builder with
output queue "output". -/
def IotMessage.builderInit : IotMessageBuilder :=
  { message := none
    output_queue := "output"
    properties := []
    system_properties := [] }

/-- `IotMessageBuilder::set_body` (src/client/message.rs:261-264). -/
def IotMessageBuilder.set_body (b : IotMessageBuilder) (body : List Nat) : IotMessageBuilder :=
  { b with message := some body }

/-- Association-list update mirroring `HashMap::insert`. -/
def assocInsert (k v : String) : List (String × String) → List (String × String)
  | [] => [(k, v)]
  | (k0, v0) :: rest =>
      if k0 = k then (k, v) :: rest else (k0, v0) :: assocInsert k v rest

/-- `IotMessageBuilder::set_system_property` (src/client/message.rs:426-434). -/
def IotMessageBuilder.set_system_property (b : IotMessageBuilder) (k v : String) :
    IotMessageBuilder :=
  { b with system_properties := assocInsert k v b.system_properties }

/-- `IotMessageBuilder::set_id` (src/client/message.rs:282-284). -/
def IotMessageBuilder.set_id (b : IotMessageBuilder) (mid : String) : IotMessageBuilder :=
  b.set_system_property "$.mid" mid

/-- `IotMessageBuilder::set_correlation_id` (src/client/message.rs:302-304). -/
def IotMessageBuilder.set_correlation_id (b : IotMessageBuilder) (cid : String) :
    IotMessageBuilder :=
  b.set_system_property "$.cid" cid

/-- `IotMessageBuilder::set_content_type` (src/client/message.rs:323-325). -/
def IotMessageBuilder.set_content_type (b : IotMessageBuilder) (ct : String) :
    IotMessageBuilder :=
  b.set_system_property "$.ct" ct

/-- `IotMessageBuilder::set_content_encoding` (src/client/message.rs:345-347). -/
def IotMessageBuilder.set_content_encoding (b : IotMessageBuilder) (ce : String) :
    IotMessageBuilder :=
  b.set_system_property "$.ce" ce

/-- `IotMessageBuilder::set_property` (src/client/message.rs:387-390). -/
def IotMessageBuilder.set_property (b : IotMessageBuilder) (k v : String) : IotMessageBuilder :=
  { b with properties := assocInsert k v b.properties }

/-- `IotMessageBuilder::set_output_queue` (src/client/message.rs:365-368). -/
def IotMessageBuilder.set_output_queue (b : IotMessageBuilder) (q : String) : IotMessageBuilder :=
  { b with output_queue := q }

/-- Result of `IotMessageBuilder::build`. -/
inductive BuildOutcome
  | panicked (msg : String)
  | buildError
  | built (m : IotMessage)
deriving DecidableEq

/-- `true` iff some key or value of the list contains an embedded NUL. -/
def anyNulByte (l : List (String × String)) : Bool :=
  l.any (fun kv => hasNulByte kv.fst || hasNulByte kv.snd)

/-- `IotMessageBuilder::build` (src/client/message.rs:393-418).
Field order follows the struct literal in the source: `self.message.unwrap()`
panics first when no body was set, then `CString::new` conversions of the
output queue, the user properties and the system properties propagate a
`NulError` via the question-mark operator. -/
def IotMessageBuilder.build (b : IotMessageBuilder) : BuildOutcome :=
  match b.message with
  | none => .panicked "called Option::unwrap on a None value"
  | some body =>
      if hasNulByte b.output_queue then .buildError
      else if anyNulByte b.properties then .buildError
      else if anyNulByte b.system_properties then .buildError
      else
        .built
          { handle := none
            body := body
            output_queue := b.output_queue
            direction := .Outgoing
            properties := b.properties
            system_properties := b.system_properties }

/-! ## Native message-handle encoding (`IotMessage::create_outgoing_handle`) -/

/-- Native calls made by the message codec. -/
inductive NativeMsgCall
  | createFromByteArray (body : List Nat)
  | setMessageId (v : String)
  | setCorrelationId (v : String)
  | setContentTypeSystemProperty (v : String)
  | setContentEncodingSystemProperty (v : String)
  | setProperty (k v : String)
  | destroy (h : Nat)
deriving DecidableEq

/-- Oracle for the native message API: whether allocation succeeds, whether an
individual property-set call reports `IOTHUB_MESSAGE_OK`, and the identifier of
a freshly allocated handle. -/
structure MsgOracle where
  createOk : Bool
  callOk : NativeMsgCall → Bool
  newHandle : Nat

/-- The dedicated native setter for a recognized system-property key
(src/client/message.rs:162-168); `none` for an unrecognized key. -/
def recognized_setter_call (k v : String) : Option NativeMsgCall :=
  if k = "$.mid" then some (.setMessageId v)
  else if k = "$.cid" then some (.setCorrelationId v)
  else if k = "$.ct" then some (.setContentTypeSystemProperty v)
  else if k = "$.ce" then some (.setContentEncodingSystemProperty v)
  else none

/-- The system-property loop of `create_outgoing_handle`
(src/client/message.rs:160-178): a recognized key issues its dedicated setter
and aborts the encoding when the native call reports non-OK; an unrecognized
key is logged (`error!("unknown system property found for key: ...")`), treated
as OK and skipped.  Returns (result, native calls made, logs). -/
def encode_system_properties (oracle : MsgOracle) :
    List (String × String) → Except String Unit × List NativeMsgCall × List LogEntry
  | [] => (Except.ok (), [], [])
  | (k, v) :: rest =>
      match recognized_setter_call k v with
      | some call =>
          if oracle.callOk call then
            let r := encode_system_properties oracle rest
            (r.fst, call :: r.snd.fst, r.snd.snd)
          else
            (Except.error ("error while setting system property for key: " ++ k), [call], [])
      | none =>
          let r := encode_system_properties oracle rest
          (r.fst, r.snd.fst,
            LogEntry.errorMsg ("unknown system property found for key: " ++ k) :: r.snd.snd)

/-- The user-property loop of `create_outgoing_handle`
(src/client/message.rs:180-190). -/
def encode_user_properties (oracle : MsgOracle) :
    List (String × String) → Except String Unit × List NativeMsgCall
  | [] => (Except.ok (), [])
  | (k, v) :: rest =>
      let call := NativeMsgCall.setProperty k v
      if oracle.callOk call then
        let r := encode_user_properties oracle rest
        (r.fst, call :: r.snd)
      else
        (Except.error ("error while setting property for: " ++ k ++ ", " ++ v), [call])

/-- Result of `create_outgoing_handle`. -/
inductive EncodeResult
  | panicked (msg : String)
  | failed (e : String)
  | encoded (h : Nat)
deriving DecidableEq

/-- Full trace of one `create_outgoing_handle` invocation. -/
structure EncodeTrace where
  result : EncodeResult
  calls : List NativeMsgCall
  logs : List LogEntry
deriving DecidableEq

/-- `IotMessage::destroy_handle` (src/client/message.rs:198-206): destroys the
native handle when one is held, otherwise does nothing. -/
def destroy_handle_calls (m : IotMessage) : List NativeMsgCall :=
  match m.handle with
  | some h => [NativeMsgCall.destroy h]
  | none => []

/-- `IotMessage::create_outgoing_handle` (src/client/message.rs:148-196):
asserts the outgoing direction, destroys any prior handle, allocates a handle
from the body bytes (failing when the native call returns null), then encodes
system properties and user properties. -/
def create_outgoing_handle (oracle : MsgOracle) (m : IotMessage) : EncodeTrace :=
  if m.direction = Direction.Incoming then
    { result := .panicked "assertion failed: self.direction == Direction::Outgoing"
      calls := []
      logs := [] }
  else
    let pre := destroy_handle_calls m ++ [NativeMsgCall.createFromByteArray m.body]
    if oracle.createOk then
      let sys := encode_system_properties oracle m.system_properties
      match sys.fst with
      | .error e =>
          { result := .failed e, calls := pre ++ sys.snd.fst, logs := sys.snd.snd }
      | .ok _ =>
          let usr := encode_user_properties oracle m.properties
          match usr.fst with
          | .error e =>
              { result := .failed e
                calls := pre ++ sys.snd.fst ++ usr.snd
                logs := sys.snd.snd }
          | .ok _ =>
              { result := .encoded oracle.newHandle
                calls := pre ++ sys.snd.fst ++ usr.snd
                logs := sys.snd.snd }
    else
      { result := .failed "error while calling IoTHubMessage_CreateFromByteArray()"
        calls := pre
        logs := [] }

/-- `impl Drop for IotMessage` (src/client/message.rs:66-72): only messages
with the outgoing direction call `destroy_handle`. -/
def drop_calls (m : IotMessage) : List NativeMsgCall :=
  if m.direction = Direction.Outgoing then destroy_handle_calls m else []

/-- Values the native side returns for an incoming message handle
(`IoTHubMessage_Get...` family).  `bodyBuf = none` models a null buffer
pointer; a `none` system-property getter models a null string pointer. -/
structure NativeIncoming where
  byteArrayOk : Bool
  bodyBuf : Option (List Nat)
  messageId : Option String
  correlationId : Option String
  contentType : Option String
  contentEncoding : Option String
  property : String → Option String

/-- `IotMessage::from_incoming_handle` (src/client/message.rs:83-146): extracts
the body (empty with a logged error on a failed call or null buffer), the four
recognized system properties when present, and exactly the requested user
property keys when present; keeps the borrowed handle, direction `Incoming`.
The only fallible operations in the source are `CString::new` on literal
strings, which cannot fail, so the function is total here. -/
def from_incoming_handle (h : Nat) (native : NativeIncoming)
    (property_keys : List String) : IotMessage :=
  let body :=
    if native.byteArrayOk then
      match native.bodyBuf with
      | some bs => bs
      | none => []
    else []
  let sys :=
    (match native.messageId with
     | some v => [("$.mid", v)]
     | none => [])
    ++ (match native.correlationId with
        | some v => [("$.cid", v)]
        | none => [])
    ++ (match native.contentType with
        | some v => [("$.ct", v)]
        | none => [])
    ++ (match native.contentEncoding with
        | some v => [("$.ce", v)]
        | none => [])
  let props := property_keys.filterMap (fun k => (native.property k).map (fun v => (k, v)))
  { handle := some h
    body := body
    output_queue := "output"
    direction := .Incoming
    properties := props
    system_properties := sys }

/-! ## Confirmation timeout configuration (`src/client/mod.rs`) -/

/-- `CONFIRMATION_TIMEOUT_DEFAULT_IN_SECS` (src/client/mod.rs:61). -/
def CONFIRMATION_TIMEOUT_DEFAULT_IN_SECS : Nat := 30

/-- Model of Rust `str::parse::<u64>`: an optional leading plus sign, then at
least one decimal digit, rejecting values that overflow 64 bits. -/
def parse_u64 (s : String) : Option Nat :=
  let cs :=
    match s.data with
    | '+' :: rest => rest
    | cs => cs
  if cs.length > 0 && cs.all Char.isDigit then
    let n := cs.foldl (fun acc c => 10 * acc + (c.toNat - 48)) 0
    if n < 2 ^ 64 then some n else none
  else none

/-- `IotHubClient::get_confirmation_timeout` (src/client/mod.rs:1453-1481):
the value of the `AZURE_SDK_CONFIRMATION_TIMEOUT_IN_SECS` environment variable
when set and parseable as `u64`, else the default of 30 seconds.  The
environment is modelled as the optional value of that variable. -/
def get_confirmation_timeout (envTimeout : Option String) : Nat :=
  match envTimeout with
  | some s =>
      match parse_u64 s with
      | some n => n
      | none => CONFIRMATION_TIMEOUT_DEFAULT_IN_SECS
  | none => CONFIRMATION_TIMEOUT_DEFAULT_IN_SECS

/-- The timeout each spawned confirmation wait task uses:
`timeout(Duration::from_secs(Self::get_confirmation_timeout()), rx)`
(src/client/mod.rs:1444). -/
def confirmation_wait_timeout_secs (envTimeout : Option String) : Nat :=
  get_confirmation_timeout envTimeout

/-- The bound `shutdown` places on draining the confirmation set:
`tokio::time::timeout(Duration::from_secs(Self::get_confirmation_timeout()), join_all)`
(src/client/mod.rs:935-940). -/
def shutdown_drain_timeout_secs (envTimeout : Option String) : Nat :=
  get_confirmation_timeout envTimeout

/-! ## Confirmation wait tasks (`IotHubClient::spawn_confirmation`) -/

/-- How one send's confirmation resolves from the wait task's point of view:
the oneshot signal arrives with a success flag before the timeout, or the
timeout elapses first (which also covers a sender dropped unused). -/
inductive ConfOutcome
  | confirmed (succeeded : Bool)
  | timedOut
deriving DecidableEq

/-- The body of the task spawned by `spawn_confirmation`
(src/client/mod.rs:1443-1450): every confirmation outcome is turned into a log
entry and nothing else; the task's return type is `()`. -/
def confirmation_task_log (traceId : Nat) : ConfOutcome → LogEntry
  | .confirmed false => .errorMsg ("confirmation(" ++ toString traceId ++ "): failed")
  | .timedOut => .warnMsg ("confirmation(" ++ toString traceId ++ "): timed out")
  | .confirmed true =>
      .debugMsg ("confirmation(" ++ toString traceId ++ "): successfully received")

/-- Synchronous-submission environment of `send_d2c_message`: the message
codec oracle plus the result of `twin.send_event_to_output_async`. -/
structure SendEnv where
  oracle : MsgOracle
  sendEventOk : Bool

/-- `IotHubClient::send_d2c_message` (src/client/mod.rs:796-814) composed with
the eventual resolution of the confirmation wait task it spawns.  The caller
gets the first component; the confirmation outcome contributes only to the log
component. -/
def send_d2c_message_run (env : SendEnv) (m : IotMessage) (traceId : Nat)
    (outcome : ConfOutcome) : RunOutcome (Except String Unit) × List LogEntry :=
  let enc := create_outgoing_handle env.oracle m
  match enc.result with
  | .panicked msg => (.panicked msg, enc.logs)
  | .failed e => (.returned (.error e), enc.logs)
  | .encoded _h =>
      let dbg := LogEntry.debugMsg ("send_d2c_message(" ++ toString traceId ++ ")")
      if env.sendEventOk then
        (.returned (.ok ()), enc.logs ++ [dbg, confirmation_task_log traceId outcome])
      else
        (.returned
            (.error "error while calling IoTHubModuleClient_LL_SendEventToOutputAsync()"),
          enc.logs ++ [dbg])

/-- `IotHubClient::twin_report` (src/client/mod.rs:840-858) composed with the
eventual resolution of the confirmation wait task it spawns.  `reportedJson`
is the serialized reported state (`reported.to_string()`); `CString::new` on
it fails only on an embedded NUL. -/
def twin_report_run (reportedJson : String) (sendReportedOk : Bool) (traceId : Nat)
    (outcome : ConfOutcome) : RunOutcome (Except String Unit) × List LogEntry :=
  let dbg := LogEntry.debugMsg ("send reported(" ++ toString traceId ++ ")")
  if hasNulByte reportedJson then
    (.returned (.error "nul byte found in provided data"), [dbg])
  else if sendReportedOk then
    (.returned (.ok ()), [dbg, confirmation_task_log traceId outcome])
  else
    (.returned (.error "error while calling IoTHubModuleClient_LL_SendReportedState()"),
      [dbg])

/-! ## Shutdown (`IotHubClient::shutdown`, src/client/mod.rs:918-961) -/

/-- Fate of one pending confirmation wait task: it resolves (its oneshot fires
or its own timeout elapses) at wall-clock second `t`, or it never resolves. -/
inductive TaskFate
  | resolvesAt (t : Nat)
  | neverResolves
deriving DecidableEq

/-- Whether a task has resolved within `limit` seconds. -/
def resolvesWithin (limit : Nat) : TaskFate → Bool
  | .resolvesAt t => decide (t ≤ limit)
  | .neverResolves => false

/-- Wall-clock seconds until every task of the list has resolved, assuming all
of them do resolve (the tasks run concurrently, so this is the maximum). -/
def maxResolveTime : List TaskFate → Nat
  | [] => 0
  | .resolvesAt t :: rest => max t (maxResolveTime rest)
  | .neverResolves :: rest => maxResolveTime rest

/-- Observable trace of one `shutdown` call. -/
structure ShutdownTrace where
  drainTimedOut : Bool
  pendingAtWarn : Nat
  abortedByJoinSetShutdown : Nat
  elapsedSecs : Nat
  finalPending : Nat
deriving DecidableEq

/-- `IotHubClient::shutdown` (src/client/mod.rs:918-961): drain the
confirmation `JoinSet` by awaiting `join_next` until empty, bounded by
`tokio::time::timeout` with `get_confirmation_timeout()` seconds; when the
timeout fires first, log a warning with the number of still-pending
confirmations; in either case finish with `JoinSet::shutdown`, which aborts
and joins every remaining task, leaving the set empty. -/
def shutdown_run (envTimeout : Option String) (tasks : List TaskFate) : ShutdownTrace :=
  let limit := shutdown_drain_timeout_secs envTimeout
  let unresolved := tasks.filter (fun f => ! resolvesWithin limit f)
  let timedOut := ! unresolved.isEmpty
  { drainTimedOut := timedOut
    pendingAtWarn := if timedOut then unresolved.length else 0
    abortedByJoinSetShutdown := unresolved.length
    elapsedSecs := if timedOut then limit else maxResolveTime tasks
    finalPending := 0 }

/-! ## `IotHubClient::twin_async` (src/client/mod.rs:877-888) -/

/-- `twin_async`: without a twin-desired observer it bails with
"twin observer not present" before any native call; with one it issues the
native get-twin request and returns its result.  The second component records
whether the native call was issued. -/
def twin_async_run (hasTwinObserver : Bool) (nativeGetTwinOk : Bool) :
    Except String Unit × Bool :=
  if hasTwinObserver then
    if nativeGetTwinOk then (.ok (), true)
    else (.error "error while calling IoTHubModuleClient_LL_GetTwinAsync()", true)
  else (.error "twin observer not present", false)

/-! ## Connection-status callbacks -/

/-- `UnauthenticatedReason` (src/client/mod.rs:111-126).  The legacy enum in
src/client.rs:33-40 is the same without `Unknown`; it is embedded into this
type, which is sound because the legacy callback only ever produces the six
mapped variants. -/
inductive UnauthenticatedReason
  | ExpiredSasToken
  | DeviceDisabled
  | BadCredential
  | RetryExpired
  | NoNetwork
  | CommunicationError
  | Unknown
deriving DecidableEq

/-- `AuthenticationStatus` (src/client/mod.rs:129-135). -/
inductive AuthenticationStatus
  | Authenticated
  | Unauthenticated (reason : UnauthenticatedReason)
deriving DecidableEq

/-- Raw native codes of `IOTHUB_CLIENT_CONNECTION_STATUS`.  The numeric values
stand for the distinct native constants; only their distinctness matters. -/
def CONNECTION_AUTHENTICATED : Nat := 0

/-- Raw native code of the unauthenticated connection status. -/
def CONNECTION_UNAUTHENTICATED : Nat := 1

/-- Raw native codes of `IOTHUB_CLIENT_CONNECTION_STATUS_REASON` that the
callbacks map to a named `UnauthenticatedReason`. -/
def REASON_EXPIRED_SAS_TOKEN : Nat := 0

/-- Raw native reason code for a disabled device. -/
def REASON_DEVICE_DISABLED : Nat := 1

/-- Raw native reason code for bad credentials. -/
def REASON_BAD_CREDENTIAL : Nat := 2

/-- Raw native reason code for an expired connection retry. -/
def REASON_RETRY_EXPIRED : Nat := 3

/-- Raw native reason code for missing network. -/
def REASON_NO_NETWORK : Nat := 4

/-- Raw native reason code for another communication error. -/
def REASON_COMMUNICATION_ERROR : Nat := 5

/-- The six native reason codes with a dedicated match arm in both
connection-status callbacks. -/
def mappedReasonCodes : List Nat :=
  [REASON_EXPIRED_SAS_TOKEN, REASON_DEVICE_DISABLED, REASON_BAD_CREDENTIAL,
   REASON_RETRY_EXPIRED, REASON_NO_NETWORK, REASON_COMMUNICATION_ERROR]

/-- The reason mapping of `IotHubClient::c_connection_status_callback`
(src/client/mod.rs:1156-1184): the six named codes map to their variants and
every other code maps to `Unknown` after an error log. -/
def map_unauthenticated_reason (r : Nat) : UnauthenticatedReason :=
  if r = REASON_EXPIRED_SAS_TOKEN then .ExpiredSasToken
  else if r = REASON_DEVICE_DISABLED then .DeviceDisabled
  else if r = REASON_BAD_CREDENTIAL then .BadCredential
  else if r = REASON_RETRY_EXPIRED then .RetryExpired
  else if r = REASON_NO_NETWORK then .NoNetwork
  else if r = REASON_COMMUNICATION_ERROR then .CommunicationError
  else .Unknown

/-- Effect of a connection-status callback invocation: the status forwarded to
the observer (modern) or handed to the event handler (legacy), an early return
on an unknown connection status (modern), or a panic. -/
inductive ConnStatusEffect
  | forwarded (s : AuthenticationStatus)
  | ignoredUnknownStatus
  | panicked (msg : String)
deriving DecidableEq

/-- `IotHubClient::c_connection_status_callback` (src/client/mod.rs:1144-1196):
maps the native pair to an `AuthenticationStatus`, with unmapped reasons going
to `Unknown` and an unknown connection status logged and dropped; the final
`blocking_send(...).expect(...)` panics only when the observer channel is
closed (`channelAlive = false`). -/
def c_connection_status_callback (connection_status status_reason : Nat)
    (channelAlive : Bool) : ConnStatusEffect :=
  if connection_status = CONNECTION_AUTHENTICATED then
    if channelAlive then .forwarded .Authenticated
    else .panicked "c_connection_status_callback: cannot blocking_send"
  else if connection_status = CONNECTION_UNAUTHENTICATED then
    if channelAlive then
      .forwarded (.Unauthenticated (map_unauthenticated_reason status_reason))
    else .panicked "c_connection_status_callback: cannot blocking_send"
  else .ignoredUnknownStatus

/-- `IotHubModuleClient::c_connection_status_callback` (src/client.rs:285-326):
the legacy variant has no `Unknown` fallback; an unmapped reason code hits
`panic!("unknown unauthenticated reason")` and an unknown connection status
hits `panic!("unknown authenticated state")`. -/
def legacy_c_connection_status_callback (connection_status status_reason : Nat) :
    ConnStatusEffect :=
  if connection_status = CONNECTION_AUTHENTICATED then .forwarded .Authenticated
  else if connection_status = CONNECTION_UNAUTHENTICATED then
    if status_reason = REASON_EXPIRED_SAS_TOKEN then
      .forwarded (.Unauthenticated .ExpiredSasToken)
    else if status_reason = REASON_DEVICE_DISABLED then
      .forwarded (.Unauthenticated .DeviceDisabled)
    else if status_reason = REASON_BAD_CREDENTIAL then
      .forwarded (.Unauthenticated .BadCredential)
    else if status_reason = REASON_RETRY_EXPIRED then
      .forwarded (.Unauthenticated .RetryExpired)
    else if status_reason = REASON_NO_NETWORK then
      .forwarded (.Unauthenticated .NoNetwork)
    else if status_reason = REASON_COMMUNICATION_ERROR then
      .forwarded (.Unauthenticated .CommunicationError)
    else .panicked "unknown unauthenticated reason"
  else .panicked "unknown authenticated state"

/-! ## Confirmation callbacks (oneshot push from the native thread) -/

/-- Trace of one confirmation-callback invocation: whether it returned or
panicked, the boolean pushed through the oneshot signal when the push
succeeded, and the logs it wrote. -/
structure ConfirmCallbackRun where
  outcome : RunOutcome Unit
  signalPushed : Option Bool
  logs : List LogEntry
deriving DecidableEq

/-- `IotHubClient::c_reported_twin_callback` (src/client/mod.rs:1294-1305):
reclaims the boxed sender, pushes `status_code == 204`; when the receiver was
already dropped the failed push is logged at error level and the callback
returns normally. -/
def c_reported_twin_callback (status_code : Int) (receiverAlive : Bool)
    (traceId : Nat) : ConfirmCallbackRun :=
  let tr := LogEntry.traceMsg ("SendReportedTwin result: " ++ toString status_code)
  if receiverAlive then
    { outcome := .returned ()
      signalPushed := some (decide (status_code = 204))
      logs := [tr] }
  else
    { outcome := .returned ()
      signalPushed := none
      logs := [tr,
        LogEntry.errorMsg ("c_reported_twin_callback(" ++ toString traceId
          ++ "): cannot send result for confirmation since receiver already timed out and dropped")] }

/-- `IOTHUB_CLIENT_CONFIRMATION_RESULT` as matched in
`c_d2c_confirmation_callback` (src/client/mod.rs:1406-1415). -/
inductive ConfirmationStatus
  | ok
  | becauseDestroy
  | confirmationError
  | messageTimeout
  | unknownCode (raw : Nat)
deriving DecidableEq

/-- The success flag `c_d2c_confirmation_callback` computes: `true` exactly for
`IOTHUB_CLIENT_CONFIRMATION_OK`. -/
def d2c_confirmation_succeeded : ConfirmationStatus → Bool
  | .ok => true
  | _ => false

/-- The per-status log entry of `c_d2c_confirmation_callback`
(src/client/mod.rs:1406-1415). -/
def d2c_confirmation_status_log (traceId : Nat) : ConfirmationStatus → LogEntry
  | .ok =>
      .debugMsg ("c_d2c_confirmation_callback(" ++ toString traceId
        ++ "): received confirmation from iothub.")
  | .becauseDestroy =>
      .errorMsg ("c_d2c_confirmation_callback (" ++ toString traceId
        ++ "): received confirmation from iothub with error IOTHUB_CLIENT_CONFIRMATION_BECAUSE_DESTROY.")
  | .confirmationError =>
      .errorMsg ("c_d2c_confirmation_callback (" ++ toString traceId
        ++ "): received confirmation from iothub with error IOTHUB_CLIENT_CONFIRMATION_ERROR.")
  | .messageTimeout =>
      .errorMsg ("c_d2c_confirmation_callback (" ++ toString traceId
        ++ "): received confirmation from iothub with error IOTHUB_CLIENT_CONFIRMATION_MESSAGE_TIMEOUT.")
  | .unknownCode _ =>
      .errorMsg ("c_d2c_confirmation_callback(" ++ toString traceId
        ++ "): received confirmation from iothub with unknown IOTHUB_CLIENT_CONFIRMATION_RESULT")

/-- `IotHubClient::c_d2c_confirmation_callback` (src/client/mod.rs:1399-1420):
reclaims the boxed sender, logs the status, then
`tx_confirm.send(succeeded).expect(...)`: when the receiver was already
dropped the failed push panics instead of being logged. -/
def c_d2c_confirmation_callback (status : ConfirmationStatus) (receiverAlive : Bool)
    (traceId : Nat) : ConfirmCallbackRun :=
  let statusLog := d2c_confirmation_status_log traceId status
  if receiverAlive then
    { outcome := .returned ()
      signalPushed := some (d2c_confirmation_succeeded status)
      logs := [statusLog] }
  else
    { outcome := .panicked ("c_d2c_confirmation_callback(" ++ toString traceId
        ++ "): cannot send confirmation result")
      signalPushed := none
      logs := [statusLog] }

/-! ## Incoming C2D messages and direct methods -/

/-- `DispositionResult` dispositions as returned to the native layer. -/
inductive Disposition
  | accepted
  | rejected
  | abandoned
  | asyncAck
deriving DecidableEq

/-- Result of the legacy C2D message callback: a panic or a disposition code. -/
inductive LegacyC2dRun
  | panicked (msg : String)
  | disposition (d : Disposition)
deriving DecidableEq

/-- The default `EventHandler::handle_c2d_message` (src/client.rs:60-63), in
effect when the consumer registered no message handler: it logs the unhandled
call and returns `Ok(())`. -/
def legacy_default_handle_c2d_message (_m : IotMessage) : Except String Unit :=
  .ok ()

/-- The disposition mapping of the legacy C2D callback after a successful
decode (src/client.rs:337-340): handler `Ok` becomes `ACCEPTED`, handler `Err`
becomes `REJECTED`. -/
def legacy_c2d_disposition (handler : IotMessage → Except String Unit)
    (m : IotMessage) : Disposition :=
  match handler m with
  | .ok _ => .accepted
  | .error _ => .rejected

/-- `IotHubModuleClient::c_c2d_message_callback` (src/client.rs:328-341): it
first calls `IotMessage::from_incoming_handle(handle)`, which in the legacy
codec (src/message.rs:50-51) is `todo!(...)` and therefore panics before any
handler runs or any disposition is produced. -/
def legacy_c_c2d_message_callback (_handler : IotMessage → Except String Unit)
    (_handle : Nat) : LegacyC2dRun :=
  .panicked "not yet implemented: implement with a C2D device twin example, since module twins are not supported for such a scenario."

/-- `METHOD_RESPONSE_SUCCESS` (src/client.rs:399, src/client/mod.rs:1315). -/
def METHOD_RESPONSE_SUCCESS : Int := 200

/-- `METHOD_RESPONSE_ERROR` (src/client.rs:400, src/client/mod.rs:1316). -/
def METHOD_RESPONSE_ERROR : Int := 401

/-- Observable result of one legacy direct-method callback invocation. -/
structure DirectMethodRun where
  status : Int
  responseBody : String
  logs : List LogEntry
deriving DecidableEq

/-- `IotHubModuleClient::c_direct_method_callback` (src/client.rs:391-443).
The registered method table is `get_direct_methods()` (`none` when the
consumer registered nothing, the default); each registered method is modelled
by the result the consumer's closure returns.  JSON payload decoding, which
the legacy source `unwrap`s, is modelled by `payloadParseOk`; method-name
decoding is assumed valid (also `unwrap`ed in the source).  When no method
table is present or the name has no entry, the callback logs
"method not implemented" and answers 401 with the empty body. -/
def legacy_c_direct_method_callback
    (methods : Option (List (String × Except String (Option String))))
    (method_name : String) (payloadParseOk : Bool) :
    RunOutcome DirectMethodRun :=
  let emptyBody := "\x7b \x7d"
  match methods.bind (fun ms => ms.lookup method_name) with
  | some result =>
      if payloadParseOk then
        match result with
        | .ok none =>
            .returned { status := METHOD_RESPONSE_SUCCESS, responseBody := emptyBody
                        logs := [LogEntry.debugMsg "Method has no result"] }
        | .ok (some r) =>
            if hasNulByte r then
              .panicked "nul byte found in provided data"
            else
              .returned { status := METHOD_RESPONSE_SUCCESS, responseBody := r
                          logs := [] }
        | .error e =>
            .returned { status := METHOD_RESPONSE_ERROR, responseBody := emptyBody
                        logs := [LogEntry.errorMsg ("error: " ++ e)] }
      else .panicked "called Result::unwrap on an Err value"
  | none =>
      .returned { status := METHOD_RESPONSE_ERROR, responseBody := emptyBody
                  logs := [LogEntry.errorMsg "method not implemented"] }

/-! ## Observer registration (`IotHubClient::set_callbacks`) -/

/-- Which of the four optional observers were supplied to the builder. -/
structure ObserverConfig where
  hasConnectionStatus : Bool
  hasIncomingMessage : Bool
  hasTwinDesired : Bool
  hasDirectMethod : Bool
deriving DecidableEq

/-- The four native callback registrations. -/
inductive RegisteredCallback
  | connectionStatus
  | inputMessage
  | twinDesired
  | directMethod
deriving DecidableEq

/-- `IotHubClient::set_callbacks` (src/client/mod.rs:1062-1092): each native
callback is registered exactly when the corresponding observer channel was
supplied at construction. -/
def set_callbacks (cfg : ObserverConfig) : List RegisteredCallback :=
  (if cfg.hasConnectionStatus then [RegisteredCallback.connectionStatus] else [])
  ++ (if cfg.hasIncomingMessage then [RegisteredCallback.inputMessage] else [])
  ++ (if cfg.hasTwinDesired then [RegisteredCallback.twinDesired] else [])
  ++ (if cfg.hasDirectMethod then [RegisteredCallback.directMethod] else [])

/-- `true` iff some string field of the builder contains an embedded NUL. -/
def builderHasNul (b : IotMessageBuilder) : Bool :=
  hasNulByte b.output_queue || anyNulByte b.properties || anyNulByte b.system_properties

/-! ## Helper lemmas -/

theorem encode_system_properties_allOk (oracle : MsgOracle)
    (hOk : ∀ c, oracle.callOk c = true) :
    ∀ l : List (String × String),
      encode_system_properties oracle l =
        (Except.ok (),
          l.filterMap (fun kv => recognized_setter_call kv.fst kv.snd),
          (l.filter (fun kv => (recognized_setter_call kv.fst kv.snd).isNone)).map
            (fun kv =>
              LogEntry.errorMsg ("unknown system property found for key: " ++ kv.fst))) := by
  intro l
  induction l with
  | nil => rfl
  | cons kv rest ih =>
      obtain ⟨k, v⟩ := kv
      cases hc : recognized_setter_call k v with
      | some call =>
          simp [encode_system_properties, hc, hOk call, ih, List.filter_cons]
      | none =>
          simp [encode_system_properties, hc, ih, List.filter_cons]

theorem encode_user_properties_allOk (oracle : MsgOracle)
    (hOk : ∀ c, oracle.callOk c = true) :
    ∀ l : List (String × String),
      encode_user_properties oracle l =
        (Except.ok (), l.map (fun kv => NativeMsgCall.setProperty kv.fst kv.snd)) := by
  intro l
  induction l with
  | nil => rfl
  | cons kv rest ih =>
      obtain ⟨k, v⟩ := kv
      simp [encode_user_properties, hOk (NativeMsgCall.setProperty k v), ih]

theorem maxResolveTime_le (limit : Nat) :
    ∀ tasks : List TaskFate,
      (∀ f ∈ tasks, resolvesWithin limit f = true) → maxResolveTime tasks ≤ limit := by
  intro tasks
  induction tasks with
  | nil => intro _; exact Nat.zero_le limit
  | cons f rest ih =>
      intro hall
      cases f with
      | resolvesAt t =>
          have ht : resolvesWithin limit (TaskFate.resolvesAt t) = true :=
            hall _ (List.mem_cons_self _ _)
          have htle : t ≤ limit := by simpa [resolvesWithin] using ht
          have hrest := ih (fun g hg => hall g (List.mem_cons_of_mem _ hg))
          simpa [maxResolveTime] using Nat.max_le.mpr ⟨htle, hrest⟩
      | neverResolves =>
          have hbad := hall _ (List.mem_cons_self _ _)
          simp [resolvesWithin] at hbad

theorem filter_unresolved_replicate (limit K : Nat) :
    (List.replicate K TaskFate.neverResolves).filter
        (fun f => ! resolvesWithin limit f)
      = List.replicate K TaskFate.neverResolves := by
  induction K with
  | zero => rfl
  | succ n ih => simp [List.replicate_succ, List.filter_cons, resolvesWithin, ih]

/-! ## Claims -/

/-- C1: for every message or twin-report whose synchronous submission succeeds
(the outgoing handle encodes and the native submit call reports OK),
`send_d2c_message` and `twin_report` return `Ok`; the asynchronous
confirmation outcome (success, failure or timeout seen by the spawned wait
task) is never propagated to the original caller and contributes only a log
entry. -/
theorem c1_submit_ok_confirmation_only_logged
    (env : SendEnv) (m : IotMessage) (traceId h : Nat)
    (henc : (create_outgoing_handle env.oracle m).result = EncodeResult.encoded h)
    (hsend : env.sendEventOk = true) :
    (∀ outcome : ConfOutcome,
       (send_d2c_message_run env m traceId outcome).fst
         = RunOutcome.returned (Except.ok ()))
    ∧ (∀ outcome : ConfOutcome,
        (send_d2c_message_run env m traceId outcome).snd
          = (create_outgoing_handle env.oracle m).logs
            ++ [LogEntry.debugMsg ("send_d2c_message(" ++ toString traceId ++ ")"),
                confirmation_task_log traceId outcome])
    ∧ (∀ (rj : String) (tid : Nat) (outcome : ConfOutcome), hasNulByte rj = false →
        (twin_report_run rj true tid outcome).fst = RunOutcome.returned (Except.ok ())
        ∧ (twin_report_run rj true tid outcome).snd
            = [LogEntry.debugMsg ("send reported(" ++ toString tid ++ ")"),
               confirmation_task_log tid outcome]) := by
  refine ⟨?_, ?_, ?_⟩
  · intro outcome
    simp [send_d2c_message_run, henc, hsend]
  · intro outcome
    simp [send_d2c_message_run, henc, hsend]
  · intro rj tid outcome hnul
    constructor <;> simp [twin_report_run, hnul]

/-- C1 witness: a concrete successful submission returns `Ok` even when the
confirmation later times out. -/
theorem c1_witness :
    (send_d2c_message_run
        { oracle := { createOk := true, callOk := fun _ => true, newHandle := 1 }
          sendEventOk := true }
        { handle := none, body := [123], output_queue := "output",
          direction := Direction.Outgoing, properties := [],
          system_properties := [("$.mid", "m1")] }
        7 ConfOutcome.timedOut).fst
      = RunOutcome.returned (Except.ok ()) :=
  (c1_submit_ok_confirmation_only_logged _ _ 7 1 (by decide) rfl).1 ConfOutcome.timedOut

/-- C2: `shutdown` first drains the confirmation set bounded by the
shutdown-drain timeout; it then unconditionally aborts and joins all remaining
tasks through `JoinSet::shutdown`, leaving the set empty, so for every number
K of never-resolving pending confirmations it returns within the drain bound
with all K aborted — it never waits indefinitely. -/
theorem c2_shutdown_never_hangs (envTimeout : Option String) (tasks : List TaskFate) :
    (shutdown_run envTimeout tasks).elapsedSecs ≤ shutdown_drain_timeout_secs envTimeout
    ∧ (shutdown_run envTimeout tasks).finalPending = 0
    ∧ (shutdown_run envTimeout tasks).abortedByJoinSetShutdown
        = (tasks.filter
            (fun f => ! resolvesWithin (shutdown_drain_timeout_secs envTimeout) f)).length
    ∧ ∀ K : Nat,
        (shutdown_run envTimeout
            (List.replicate K TaskFate.neverResolves)).abortedByJoinSetShutdown = K := by
  refine ⟨?_, rfl, rfl, ?_⟩
  · cases hemp : (tasks.filter
        (fun f => ! resolvesWithin (shutdown_drain_timeout_secs envTimeout) f)).isEmpty with
    | false => simp [shutdown_run, hemp]
    | true =>
        have hnil : tasks.filter
            (fun f => ! resolvesWithin (shutdown_drain_timeout_secs envTimeout) f) = [] :=
          List.isEmpty_iff.mp hemp
        have hall : ∀ f ∈ tasks,
            resolvesWithin (shutdown_drain_timeout_secs envTimeout) f = true := by
          intro f hf
          have hnot := List.filter_eq_nil_iff.mp hnil f hf
          simpa using hnot
        simpa [shutdown_run, hemp] using maxResolveTime_le _ tasks hall
  · intro K
    simp [shutdown_run, filter_unresolved_replicate]

/-- C3: evaluation of both confirmation callbacks when the wait-task receiver
was already dropped: `c_reported_twin_callback` logs the failed oneshot push
and returns, but `c_d2c_confirmation_callback` panics through `expect` on the
failed push, contradicting the non-fatal logged no-op the claim states. -/
theorem c3_d2c_callback_panics_on_dropped_receiver :
    (c_d2c_confirmation_callback ConfirmationStatus.ok false 7).outcome
        = RunOutcome.panicked "c_d2c_confirmation_callback(7): cannot send confirmation result"
    ∧ (∀ (sc : Int) (alive : Bool) (tid : Nat),
        (c_reported_twin_callback sc alive tid).outcome = RunOutcome.returned ()) := by
  constructor
  · rfl
  · intro sc alive tid
    cases alive <;> rfl

/-- C4: an unauthenticated status with a reason code outside the six mapped
values is forwarded as `Unauthenticated(Unknown)` by the current
`c_connection_status_callback`, while the legacy module-client callback cited
by the claim panics on the same input. -/
theorem c4_unmapped_reason_unknown_vs_legacy_panic
    (r : Nat) (hr : r ∉ mappedReasonCodes) :
    c_connection_status_callback CONNECTION_UNAUTHENTICATED r true
        = ConnStatusEffect.forwarded
            (AuthenticationStatus.Unauthenticated UnauthenticatedReason.Unknown)
    ∧ legacy_c_connection_status_callback CONNECTION_UNAUTHENTICATED r
        = ConnStatusEffect.panicked "unknown unauthenticated reason" := by
  simp [mappedReasonCodes, REASON_EXPIRED_SAS_TOKEN, REASON_DEVICE_DISABLED,
    REASON_BAD_CREDENTIAL, REASON_RETRY_EXPIRED, REASON_NO_NETWORK,
    REASON_COMMUNICATION_ERROR] at hr
  obtain ⟨h0, h1, h2, h3, h4, h5⟩ := hr
  constructor
  · simp [c_connection_status_callback, CONNECTION_UNAUTHENTICATED,
      CONNECTION_AUTHENTICATED, map_unauthenticated_reason, REASON_EXPIRED_SAS_TOKEN,
      REASON_DEVICE_DISABLED, REASON_BAD_CREDENTIAL, REASON_RETRY_EXPIRED,
      REASON_NO_NETWORK, REASON_COMMUNICATION_ERROR, h0, h1, h2, h3, h4, h5]
  · simp [legacy_c_connection_status_callback, CONNECTION_UNAUTHENTICATED,
      CONNECTION_AUTHENTICATED, REASON_EXPIRED_SAS_TOKEN, REASON_DEVICE_DISABLED,
      REASON_BAD_CREDENTIAL, REASON_RETRY_EXPIRED, REASON_NO_NETWORK,
      REASON_COMMUNICATION_ERROR, h0, h1, h2, h3, h4, h5]

/-- C4 witness: the unmapped raw reason code 99. -/
theorem c4_witness :
    c_connection_status_callback CONNECTION_UNAUTHENTICATED 99 true
        = ConnStatusEffect.forwarded
            (AuthenticationStatus.Unauthenticated UnauthenticatedReason.Unknown)
    ∧ legacy_c_connection_status_callback CONNECTION_UNAUTHENTICATED 99
        = ConnStatusEffect.panicked "unknown unauthenticated reason" :=
  c4_unmapped_reason_unknown_vs_legacy_panic 99 (by decide)

/-- C5 counterexample: delivering an incoming C2D message to the legacy module
client with the default (absent) message observer does not produce the
`Rejected` disposition — the callback panics in `from_incoming_handle`, which
is `todo!()`. -/
theorem c5_counterexample :
    legacy_c_c2d_message_callback legacy_default_handle_c2d_message 0
        = LegacyC2dRun.panicked "not yet implemented: implement with a C2D device twin example, since module twins are not supported for such a scenario."
    ∧ legacy_c_c2d_message_callback legacy_default_handle_c2d_message 0
        ≠ LegacyC2dRun.disposition Disposition.rejected := by
  exact ⟨rfl, by decide⟩

/-- C5 (amended): in the legacy module client an incoming C2D message panics
before any disposition is produced (its decoder is unimplemented), and even
the post-decode mapping would turn the default observer-absent handler's `Ok`
into `Accepted`, not `Rejected`; in the current client the message and method
callbacks are registered exactly when the corresponding observer was supplied;
a direct method invoked with no registered method table (or no matching entry)
answers 401 with a "method not implemented" log. -/
theorem c5_amended_observer_absent_behavior :
    (∀ (handler : IotMessage → Except String Unit) (hnd : Nat),
       legacy_c_c2d_message_callback handler hnd
         = LegacyC2dRun.panicked "not yet implemented: implement with a C2D device twin example, since module twins are not supported for such a scenario.")
    ∧ (∀ m : IotMessage,
        legacy_c2d_disposition legacy_default_handle_c2d_message m = Disposition.accepted)
    ∧ (∀ cfg : ObserverConfig,
        (RegisteredCallback.inputMessage ∈ set_callbacks cfg
          ↔ cfg.hasIncomingMessage = true)
        ∧ (RegisteredCallback.directMethod ∈ set_callbacks cfg
          ↔ cfg.hasDirectMethod = true))
    ∧ (∀ (name : String) (p : Bool),
        legacy_c_direct_method_callback none name p
          = RunOutcome.returned
              { status := METHOD_RESPONSE_ERROR, responseBody := "\x7b \x7d",
                logs := [LogEntry.errorMsg "method not implemented"] })
    ∧ (∀ (ms : List (String × Except String (Option String))) (name : String) (p : Bool),
        ms.lookup name = none →
        legacy_c_direct_method_callback (some ms) name p
          = RunOutcome.returned
              { status := METHOD_RESPONSE_ERROR, responseBody := "\x7b \x7d",
                logs := [LogEntry.errorMsg "method not implemented"] }) := by
  refine ⟨fun _ _ => rfl, fun _ => rfl, ?_, fun _ _ => rfl, ?_⟩
  · intro cfg
    obtain ⟨a, b, c, d⟩ := cfg
    cases a <;> cases b <;> cases c <;> cases d <;> simp [set_callbacks]
  · intro ms name p hnone
    simp [legacy_c_direct_method_callback, hnone]

/-- C5 witness: a method table without the requested method name answers 401
"method not implemented". -/
theorem c5_witness :
    legacy_c_direct_method_callback (some [("reboot", Except.ok none)]) "factory" true
      = RunOutcome.returned
          { status := METHOD_RESPONSE_ERROR, responseBody := "\x7b \x7d",
            logs := [LogEntry.errorMsg "method not implemented"] } :=
  c5_amended_observer_absent_behavior.2.2.2.2 [("reboot", Except.ok none)] "factory" true rfl

/-- C6: with a body supplied, `IotMessageBuilder::build` performs pure data
assembly with no native calls; it fails exactly when some supplied string
field (output queue, a user property key or value, a system property key or
value) contains an embedded NUL byte, and otherwise returns an `IotMessage`
carrying exactly the supplied fields. -/
theorem c6_build_fails_exactly_on_nul
    (b : IotMessageBuilder) (body : List Nat) (hbody : b.message = some body) :
    (b.build = BuildOutcome.buildError ↔ builderHasNul b = true)
    ∧ (builderHasNul b = false →
        b.build = BuildOutcome.built
          { handle := none, body := body, output_queue := b.output_queue,
            direction := Direction.Outgoing, properties := b.properties,
            system_properties := b.system_properties }) := by
  cases hq : hasNulByte b.output_queue <;>
    cases hp : anyNulByte b.properties <;>
      cases hs : anyNulByte b.system_properties <;>
        simp [IotMessageBuilder.build, hbody, builderHasNul, hq, hp, hs]

/-- C6 witness: a NUL-free builder input builds the expected message. -/
theorem c6_witness :
    IotMessageBuilder.build
        { message := some [1, 2], output_queue := "output",
          properties := [("k", "v")], system_properties := [("$.mid", "m1")] }
      = BuildOutcome.built
          { handle := none, body := [1, 2], output_queue := "output",
            direction := Direction.Outgoing, properties := [("k", "v")],
            system_properties := [("$.mid", "m1")] } :=
  (c6_build_fails_exactly_on_nul _ [1, 2] rfl).2 (by decide)

/-- C7: during `create_outgoing_handle` exactly the recognized keys `$.mid`,
`$.cid`, `$.ct`, `$.ce` are encoded through their dedicated native setters;
every other system-property key produces a logged message, is treated as OK
and skipped; and when the native allocation and all property-set calls report
OK, the encoding succeeds. -/
theorem c7_recognized_keys_encoded_unknown_skipped
    (oracle : MsgOracle) (m : IotMessage)
    (hdir : m.direction = Direction.Outgoing)
    (hCreate : oracle.createOk = true)
    (hOk : ∀ c, oracle.callOk c = true) :
    create_outgoing_handle oracle m =
      { result := EncodeResult.encoded oracle.newHandle
        calls := destroy_handle_calls m ++ [NativeMsgCall.createFromByteArray m.body]
          ++ m.system_properties.filterMap (fun kv => recognized_setter_call kv.fst kv.snd)
          ++ m.properties.map (fun kv => NativeMsgCall.setProperty kv.fst kv.snd)
        logs := (m.system_properties.filter
            (fun kv => (recognized_setter_call kv.fst kv.snd).isNone)).map
          (fun kv =>
            LogEntry.errorMsg ("unknown system property found for key: " ++ kv.fst)) }
    ∧ ∀ k v : String,
        (recognized_setter_call k v).isSome
          ↔ (k = "$.mid" ∨ k = "$.cid" ∨ k = "$.ct" ∨ k = "$.ce") := by
  constructor
  · have hsys := encode_system_properties_allOk oracle hOk m.system_properties
    have husr := encode_user_properties_allOk oracle hOk m.properties
    have hni : ¬ m.direction = Direction.Incoming := by
      rw [hdir]; intro hcontra; cases hcontra
    simp [create_outgoing_handle, hni, hCreate, hsys, husr, List.append_assoc]
  · intro k v
    by_cases h1 : k = "$.mid"
    · simp [recognized_setter_call, h1]
    · by_cases h2 : k = "$.cid"
      · simp [recognized_setter_call, h1, h2]
      · by_cases h3 : k = "$.ct"
        · simp [recognized_setter_call, h1, h2, h3]
        · by_cases h4 : k = "$.ce"
          · simp [recognized_setter_call, h1, h2, h3, h4]
          · simp [recognized_setter_call, h1, h2, h3, h4]

/-- C7 witness: encoding with an unrecognized key `$.bogus` succeeds, issues
dedicated setters for the recognized keys only, and logs the unknown key. -/
theorem c7_witness :
    create_outgoing_handle
        { createOk := true, callOk := fun _ => true, newHandle := 1 }
        { handle := none, body := [123], output_queue := "output",
          direction := Direction.Outgoing, properties := [("k1", "v1")],
          system_properties := [("$.mid", "m1"), ("$.bogus", "x"), ("$.ce", "utf-8")] }
      = { result := EncodeResult.encoded 1
          calls := [NativeMsgCall.createFromByteArray [123],
            NativeMsgCall.setMessageId "m1",
            NativeMsgCall.setContentEncodingSystemProperty "utf-8",
            NativeMsgCall.setProperty "k1" "v1"]
          logs := [LogEntry.errorMsg "unknown system property found for key: $.bogus"] } := by
  have h := (c7_recognized_keys_encoded_unknown_skipped
    { createOk := true, callOk := fun _ => true, newHandle := 1 }
    { handle := none, body := [123], output_queue := "output",
      direction := Direction.Outgoing, properties := [("k1", "v1")],
      system_properties := [("$.mid", "m1"), ("$.bogus", "x"), ("$.ce", "utf-8")] }
    rfl rfl (fun _ => rfl)).1
  rw [h]
  decide

/-- C8: dropping an `IotMessage` that holds a native handle releases it if and
only if the direction is `Outgoing`; a message from `from_incoming_handle` has
direction `Incoming` and its drop releases nothing, keeping the borrowed
handle; no field other than direction and handle influences the drop. -/
theorem c8_drop_releases_iff_outgoing :
    (∀ (m : IotMessage) (h : Nat), m.handle = some h →
       (drop_calls m = [NativeMsgCall.destroy h] ↔ m.direction = Direction.Outgoing)
       ∧ (m.direction = Direction.Incoming → drop_calls m = []))
    ∧ (∀ (hnd : Nat) (native : NativeIncoming) (keys : List String),
        (from_incoming_handle hnd native keys).direction = Direction.Incoming
        ∧ (from_incoming_handle hnd native keys).handle = some hnd
        ∧ drop_calls (from_incoming_handle hnd native keys) = [])
    ∧ (∀ m₁ m₂ : IotMessage, m₁.handle = m₂.handle → m₁.direction = m₂.direction →
        drop_calls m₁ = drop_calls m₂) := by
  refine ⟨?_, ?_, ?_⟩
  · intro m h hm
    cases hd : m.direction <;>
      simp [drop_calls, destroy_handle_calls, hd, hm]
  · intro hnd native keys
    exact ⟨rfl, rfl, rfl⟩
  · intro m₁ m₂ hh hd
    simp [drop_calls, destroy_handle_calls, hh, hd]

/-- C8 witness: a concrete outgoing message with handle 5 releases exactly
that handle on drop. -/
theorem c8_witness :
    drop_calls
        { handle := some 5, body := [], output_queue := "output",
          direction := Direction.Outgoing, properties := [], system_properties := [] }
      = [NativeMsgCall.destroy 5] :=
  ((c8_drop_releases_iff_outgoing.1
      { handle := some 5, body := [], output_queue := "output",
        direction := Direction.Outgoing, properties := [], system_properties := [] }
      5 rfl).1).mpr rfl

/-- C9 counterexample: the bound `shutdown` places on draining the
confirmation set is not a separate value — it is the very same
`get_confirmation_timeout()` each spawned confirmation wait task uses, both in
the default configuration and under an explicit configuration. -/
theorem c9_counterexample :
    shutdown_drain_timeout_secs none = confirmation_wait_timeout_secs none
    ∧ shutdown_drain_timeout_secs (some "300") = confirmation_wait_timeout_secs (some "300")
    ∧ shutdown_drain_timeout_secs none = 30
    ∧ confirmation_wait_timeout_secs none = 30 := by
  exact ⟨rfl, rfl, rfl, rfl⟩

/-- C9 (amended): the shutdown drain bound and the per-confirmation wait
timeout are the same configurable constant `get_confirmation_timeout`
(environment variable `AZURE_SDK_CONFIRMATION_TIMEOUT_IN_SECS`, default 30s);
no separate, typically larger shutdown bound exists. -/
theorem c9_single_timeout_constant :
    (∀ envTimeout : Option String,
       shutdown_drain_timeout_secs envTimeout = confirmation_wait_timeout_secs envTimeout)
    ∧ get_confirmation_timeout (some "5") = 5
    ∧ get_confirmation_timeout none = CONFIRMATION_TIMEOUT_DEFAULT_IN_SECS := by
  refine ⟨fun _ => rfl, by decide, rfl⟩

/-- C10: `twin_async` on a client without a twin-desired observer returns the
error "twin observer not present" without issuing the native get-twin call;
with an observer present the native request is issued and its result is
returned to the caller. -/
theorem c10_twin_async_requires_observer :
    (∀ nativeOk : Bool,
       twin_async_run false nativeOk = (Except.error "twin observer not present", false))
    ∧ twin_async_run true true = (Except.ok (), true)
    ∧ twin_async_run true false
        = (Except.error "error while calling IoTHubModuleClient_LL_GetTwinAsync()", true) := by
  refine ⟨fun _ => rfl, rfl, rfl⟩

end AzureIotSdk
